import Mathlib

/-!
Shallow embedding of `src/main.py` of nix-provenance-action: a tool that
assembles a SLSA v1.0 provenance document for a nix derivation by querying
the nix store (`nix-store --query --hash`, `nix-store --query --references`
or `--requisites`, `nix derivation show`) and reading environment
variables.

The external `nix` tools and the process environment are modelled as explicit
inputs (`Store`, `Env`).  `exec_cmd` returns the captured stdout of the
command on success; a non-zero exit is `Option.none` (which the Python code
either turns into `subprocess.CalledProcessError` or, in tolerant mode,
into `None`).  JSON payloads produced by `nix derivation show` and by the
two `PROVENANCE_*_PARAMS` environment variables are represented post-parse:
`nix derivation show` output by `DrvInfo` (its fixed schema), the parameter
payloads by ordered association lists of JSON values.
-/

namespace NixProvenance

/-- Python exceptions the embedded functions can raise. -/
inductive PyError
  | calledProcessError  -- subprocess.CalledProcessError, re-raised by exec_cmd
  | valueError          -- e.g. tuple unpacking of str.split, int() on a non-numeric string
  | keyError            -- dict indexing with a missing key
  | stopIteration       -- next(iter({}))
  deriving DecidableEq, Repr

/-- A JSON value, as produced by `json.loads` (numbers restricted to
integers, the only kind this program's inputs use). Objects are ordered
association lists, matching the insertion order of a Python dict. -/
inductive JValue
  | null
  | bool (b : Bool)
  | num (n : Int)
  | str (s : String)
  | arr (elems : List JValue)
  | obj (fields : List (String × JValue))

/-- Python truthiness (`if v:`) of a JSON value. -/
def truthy : JValue → Bool
  | .null => false
  | .bool b => b
  | .num n => n != 0
  | .str s => s != ""
  | .arr elems => !elems.isEmpty
  | .obj fields => !fields.isEmpty

/-- One entry of the `outputs` object of `nix derivation show`:
`data["path"]` is the store path of the output. -/
structure OutputDescriptor where
  path : String
  deriving DecidableEq, Repr

/-- The fields of one derivation in `nix derivation show` output that
`main.py` reads: `["name"]`, `["env"]` (a string-to-string object) and
`["outputs"]` (output name to output descriptor, in object order). -/
structure DrvInfo where
  name : String
  env : List (String × String)
  outputs : List (String × OutputDescriptor)
  deriving DecidableEq, Repr

/-- The nix store, seen through the three commands `main.py` runs.
Each field models successful stdout of the command; `Option.none` is a
non-zero exit.
* `queryHash p`: stdout of `nix-store --query --hash p`.
* `queryRefs recursive p`: stdout of `nix-store --query --requisites p`
  (when `recursive`) or `--references p`, already whitespace-split into the
  returned sequence of paths (the `.split()` on line 62).
* `drvShow p`: the parsed JSON object printed by `nix derivation show p`,
  an ordered object keyed by derivation path. -/
structure Store where
  queryHash : String → Option String
  queryRefs : Bool → String → Option (List String)
  drvShow : String → Option (List (String × DrvInfo))

/-- The process environment variables `main.py` reads, with the two JSON
parameter payloads represented post-parse (`Option.none` = variable unset,
in which case `os.environ.get(..., "{}")` falls back to the empty object). -/
structure Env where
  build_type : Option String
  builder_id : Option String
  invocation_id : Option String
  timestamp_begin : Option String
  timestamp_end : Option String
  external_params : Option (List (String × JValue))
  internal_params : Option (List (String × JValue))

/-- Python's `str.strip()`: drop leading and trailing whitespace. -/
def pyStrip (s : String) : String :=
  ⟨((s.data.dropWhile Char.isWhitespace).reverse.dropWhile Char.isWhitespace).reverse⟩

/-- Worker for `pySplitChar`: `acc` holds the current field, reversed. -/
def splitCharAux (c : Char) : List Char → List Char → List String
  | [], acc => [⟨acc.reverse⟩]
  | x :: xs, acc =>
    if x = c then ⟨acc.reverse⟩ :: splitCharAux c xs []
    else splitCharAux c xs (x :: acc)

/-- Python's `str.split(sep)` for a one-character separator: split at every
occurrence, keeping empty fields (`"".split(":") == [""]`). -/
def pySplitChar (s : String) (c : Char) : List String :=
  splitCharAux c s.data []

/-- Python's `str.endswith(suffix)`. -/
def pyEndsWith (s suffix : String) : Bool :=
  suffix.data.isSuffixOf s.data

/-- An in-toto subject as built by `get_subjects`:
`{"name": name, "uri": data["path"], "digest": {hash_type: hash_value}}`. -/
structure Subject where
  name : String
  uri : String
  digest : String × String
  deriving DecidableEq, Repr

/-- A SLSA ResourceDescriptor as built by `get_dependencies`: `uri` and
`digest` always present, `name` only for `.drv` paths, `annotations` only
when non-empty (insertion order: uri, digest, name, annotations). -/
structure ResourceDescriptor where
  uri : String
  digest : String × String
  name : Option String := none
  annotations : Option (List (String × String)) := none
  deriving DecidableEq, Repr

/-- `get_subjects` (main.py lines 35-56).  Iterates the `outputs` mapping in
order; a failed hash query (tolerant mode) logs a warning naming the output
and skips it; a successful query is stripped and split on `":"` and unpacked
into exactly two parts (`ValueError` otherwise).  Returns the subjects
together with the names warned about, both in iteration order. -/
def get_subjects (store : Store) :
    List (String × OutputDescriptor) → Except PyError (List Subject × List String)
  | [] => .ok ([], [])
  | (name, data) :: rest =>
    match store.queryHash data.path with
    | Option.none =>
      match get_subjects store rest with
      | .ok (subs, warns) => .ok (subs, name :: warns)
      | .error e => .error e
    | Option.some hash =>
      match pySplitChar (pyStrip hash) ':' with
      | [hash_type, hash_value] =>
        match get_subjects store rest with
        | .ok (subs, warns) =>
            .ok ({ name := name, uri := data.path, digest := (hash_type, hash_value) } :: subs,
                 warns)
        | .error e => .error e
      | _ => .error .valueError

/-- The body of the `for drv in deps_drv` loop of `get_dependencies`
(main.py lines 63-88): hash query in strict mode (raises on non-zero exit),
strip and split the digest, and for `.drv` paths fetch `nix derivation show`
metadata to set `name` and, when the `env` has a truthy `version`, the
`annotations.version`. -/
def dependency_descriptor (store : Store) (drv : String) :
    Except PyError ResourceDescriptor :=
  match store.queryHash drv with
  | Option.none => .error .calledProcessError
  | Option.some hash =>
    match pySplitChar (pyStrip hash) ':' with
    | [hash_type, hash_value] =>
      if pyEndsWith drv ".drv" then
        match store.drvShow drv with
        | Option.none => .error .calledProcessError
        | Option.some dep_json =>
          match List.lookup drv dep_json with
          | Option.none => .error .keyError
          | Option.some info =>
            let version := List.lookup "version" info.env
            let annotations : List (String × String) :=
              match version with
              | Option.some v => if v != "" then [("version", v)] else []
              | Option.none => []
            .ok { uri := drv, digest := (hash_type, hash_value),
                  name := some info.name,
                  annotations := if annotations != [] then some annotations else none }
      else
        .ok { uri := drv, digest := (hash_type, hash_value) }
    | _ => .error .valueError

/-- The loop of `get_dependencies` over the query result, in order; the
first raised exception aborts the whole loop. -/
def dependencies_of (store : Store) : List String → Except PyError (List ResourceDescriptor)
  | [] => .ok []
  | drv :: rest =>
    match dependency_descriptor store drv with
    | .error e => .error e
    | .ok d =>
      match dependencies_of store rest with
      | .error e => .error e
      | .ok ds => .ok (d :: ds)

/-- `get_dependencies` (main.py lines 59-90): query references (strict mode:
a failed query raises `CalledProcessError`), then map the loop body over the
returned paths in order, never deduplicating or reordering. -/
def get_dependencies (store : Store) (drv_path : String) (recursive : Bool) :
    Except PyError (List ResourceDescriptor) :=
  match store.queryRefs recursive drv_path with
  | Option.none => .error .calledProcessError
  | Option.some deps_drv => dependencies_of store deps_drv

/-- Python dict assignment `params[k] = v` on an ordered association list:
replace the (first) binding of `k` in place, else append. -/
def dictSet : List (String × JValue) → String → JValue → List (String × JValue)
  | [], k, v => [(k, v)]
  | (k', v') :: rest, k, v =>
    if k' = k then (k, v) :: rest else (k', v') :: dictSet rest k v

/-- `get_external_parameters` (main.py lines 93-101): parse
`PROVENANCE_EXTERNAL_PARAMS` (default `{}`), always assign
`params["derivation"] = drv_path`, then keep only entries with truthy
values. -/
def get_external_parameters (env : Env) (drv_path : String) : List (String × JValue) :=
  let params := env.external_params.getD []
  let params := dictSet params "derivation" (.str drv_path)
  params.filter (fun p => truthy p.2)

/-- `get_internal_parameters` (main.py lines 104-106): parse
`PROVENANCE_INTERNAL_PARAMS` (default `{}`) and return it verbatim. -/
def get_internal_parameters (env : Env) : List (String × JValue) :=
  env.internal_params.getD []

/-- Two-digit zero padding, as `strftime` does for `%m %d %H %M %S`. -/
def pad2 (n : Nat) : String :=
  if n < 10 then "0" ++ toString n else toString n

/-- `datetime.fromtimestamp(t, tz=timezone.utc).strftime("%Y-%m-%dT%H:%M:%S")`
for an integer unix time `t`: proleptic-Gregorian civil date (days-to-civil
conversion) plus the time of day, UTC. -/
def strftimeUtc (t : Int) : String :=
  let days : Int := t.fdiv 86400
  let sod : Nat := (t.fmod 86400).toNat
  let z : Int := days + 719468
  let era : Int := z.fdiv 146097
  let doe : Nat := (z - era * 146097).toNat
  let yoe : Nat := (doe - doe / 1460 + doe / 36524 - doe / 146096) / 365
  let doy : Nat := doe - (365 * yoe + yoe / 4 - yoe / 100)
  let mp : Nat := (5 * doy + 2) / 153
  let d : Nat := doy - (153 * mp + 2) / 5 + 1
  let m : Nat := if mp < 10 then mp + 3 else mp - 9
  let y : Int := (yoe : Int) + era * 400 + (if m ≤ 2 then 1 else 0)
  toString y ++ "-" ++ pad2 m ++ "-" ++ pad2 d ++ "T" ++
    pad2 (sod / 3600) ++ ":" ++ pad2 (sod % 3600 / 60) ++ ":" ++ pad2 (sod % 60)

/-- Python's `int(s)` on a string: optional surrounding whitespace, optional
sign, decimal digits; anything else raises `ValueError`.  (Python also
accepts underscores between digits; that fringe of `int()` is not modelled
and no property here depends on it.)  `digitsVal` is the digits part: the
value of a non-empty all-digit character list. -/
def digitsVal (l : List Char) : Option Nat :=
  match l with
  | [] => Option.none
  | _ =>
    if l.all Char.isDigit then
      some (l.foldl (fun acc c => 10 * acc + (c.toNat - 48)) 0)
    else Option.none

def pyInt (s : String) : Option Int :=
  match (pyStrip s).data with
  | '-' :: rest => (digitsVal rest).map (fun n => -(n : Int))
  | '+' :: rest => (digitsVal rest).map (fun n => (n : Int))
  | l => (digitsVal l).map (fun n => (n : Int))

/-- The argument of `timestamp`: `None`, an int, or a string (in
`provenance` it is always `os.environ.get(...)`, i.e. `None` or a string). -/
inductive TimestampInput
  | none
  | int (n : Int)
  | str (s : String)

/-- `timestamp` (main.py lines 109-120): `None` passes through; otherwise
`int(unix_time)` (a `ValueError` on a non-numeric string), formatted with
`strftime("%Y-%m-%dT%H:%M:%S.%f")`, the last four characters dropped
(`[:-4]`, leaving two fractional digits, always `00` since the time is an
integer number of seconds) and `"Z"` appended. -/
def timestamp : TimestampInput → Except PyError (Option String)
  | .none => .ok Option.none
  | .int n => .ok (some ((strftimeUtc n ++ "." ++ "000000").dropRight 4 ++ "Z"))
  | .str s =>
    match pyInt s with
    | Option.some n => .ok (some ((strftimeUtc n ++ "." ++ "000000").dropRight 4 ++ "Z"))
    | Option.none => .error .valueError

/-- `os.environ.get(...)` as a `timestamp` argument: `None` or a string. -/
def tsInput : Option String → TimestampInput
  | Option.none => .none
  | Option.some s => .str s

/-- A string-or-None environment value as a JSON value (`json.dumps` turns
Python `None` into `null`). -/
def optStrJ : Option String → JValue
  | Option.none => .null
  | Option.some s => .str s

/-- The subject dict as it sits in the final document. -/
def Subject.toJson (s : Subject) : JValue :=
  .obj [("name", .str s.name), ("uri", .str s.uri),
        ("digest", .obj [(s.digest.1, .str s.digest.2)])]

/-- The dependency dict as it sits in the final document, fields in the
insertion order of `get_dependencies`: `uri`, `digest`, then `name` and
`annotations` when present. -/
def ResourceDescriptor.toJson (d : ResourceDescriptor) : JValue :=
  .obj ([("uri", .str d.uri), ("digest", .obj [(d.digest.1, .str d.digest.2)])]
    ++ (match d.name with
        | Option.some n => [("name", .str n)]
        | Option.none => [])
    ++ (match d.annotations with
        | Option.some a => [("annotations", .obj (a.map (fun p => (p.1, .str p.2))))]
        | Option.none => []))

/-- `provenance` (main.py lines 123-158): resolve the target through
`nix derivation show`, take the first key as the derivation path
(`next(iter(drv_json))`, `StopIteration` on an empty object), and assemble
the in-toto statement.  The `clock` argument models the ambient wall clock
available to the process; the source never samples it (there is no
`datetime.now()` or equivalent), so it appears nowhere in the body. -/
def provenance (store : Store) (env : Env) (clock : Int) (target : String)
    (recursive : Bool) : Except PyError JValue :=
  match store.drvShow target with
  | Option.none => .error .calledProcessError
  | Option.some drv_json_full =>
    match drv_json_full with
    | [] => .error .stopIteration
    | (drv_path, _) :: _ =>
      match List.lookup drv_path drv_json_full with
      | Option.none => .error .keyError
      | Option.some drv_json =>
        match get_subjects store drv_json.outputs with
        | .error e => .error e
        | .ok (subjects, _warnings) =>
          match get_dependencies store drv_path recursive with
          | .error e => .error e
          | .ok deps =>
            match timestamp (tsInput env.timestamp_begin) with
            | .error e => .error e
            | .ok startedOn =>
              match timestamp (tsInput env.timestamp_end) with
              | .error e => .error e
              | .ok finishedOn =>
                let _ := clock
                .ok (.obj [
                  ("_type", .str "https://in-toto.io/Statement/v1"),
                  ("subject", .arr (subjects.map Subject.toJson)),
                  ("predicateType", .str "https://slsa.dev/provenance/v1"),
                  ("predicate", .obj [
                    ("buildDefinition", .obj [
                      ("buildType", optStrJ env.build_type),
                      ("externalParameters", .obj (get_external_parameters env drv_path)),
                      ("internalParameters", .obj (get_internal_parameters env)),
                      ("resolvedDependencies", .arr (deps.map ResourceDescriptor.toJson))]),
                    ("runDetails", .obj [
                      ("builder", .obj [
                        ("id", optStrJ env.builder_id),
                        ("builderDependencies", .arr []),
                        ("version", .obj [])]),
                      ("metadata", .obj [
                        ("invocationId", optStrJ env.invocation_id),
                        ("startedOn", optStrJ startedOn),
                        ("finishedOn", optStrJ finishedOn)]),
                      ("byproducts", .arr [])])])])

/-- Look up a key in a JSON object (used to state properties of the
assembled document). -/
def jLookup (j : JValue) (k : String) : Option JValue :=
  match j with
  | .obj fields => List.lookup k fields
  | _ => Option.none

/-! ## Helper lemmas -/

/-- Every successfully built dependency descriptor carries the queried path
as its `uri`. -/
theorem dependency_descriptor_uri (store : Store) (drv : String) (d : ResourceDescriptor)
    (h : dependency_descriptor store drv = .ok d) : d.uri = drv := by
  unfold dependency_descriptor at h
  repeat' split at h
  all_goals first
    | exact Except.noConfusion h
    | (injection h with h; subst h; rfl)

/-- The dependency loop maps the queried paths one-to-one, in order, onto
the `uri` fields of its result. -/
theorem dependencies_of_uris (store : Store) (ps : List String) (ds : List ResourceDescriptor)
    (h : dependencies_of store ps = .ok ds) : ds.map (fun d => d.uri) = ps := by
  induction ps generalizing ds with
  | nil =>
    simp only [dependencies_of] at h
    cases h
    simp
  | cons p rest ih =>
    unfold dependencies_of at h
    cases hd1 : dependency_descriptor store p with
    | error e =>
      simp only [hd1] at h
      exact Except.noConfusion h
    | ok d =>
      simp only [hd1] at h
      cases hds : dependencies_of store rest with
      | error e =>
        simp only [hds] at h
        exact Except.noConfusion h
      | ok ds' =>
        simp only [hds] at h
        injection h with h
        subst h
        simp [dependency_descriptor_uri store p d hd1, ih ds' hds]

/-- Looking up `k` after a `dictSet` of `k` and a truthiness filter finds
exactly the assigned value (which survives the filter). -/
theorem lookup_filter_dictSet (params : List (String × JValue)) (k : String) (v : JValue)
    (hv : truthy v = true) :
    List.lookup k ((dictSet params k v).filter (fun p => truthy p.2)) = some v := by
  induction params with
  | nil => simp [dictSet, hv, List.lookup]
  | cons p rest ih =>
    obtain ⟨k', v'⟩ := p
    by_cases hk : k' = k
    · subst hk
      simp [dictSet, hv, List.lookup]
    · have hkk : (k == k') = false := by
        rw [beq_eq_false_iff_ne]
        exact Ne.symm hk
      by_cases hv' : truthy v' = true
      · simpa [dictSet, hk, hv', List.lookup, hkk] using ih
      · simpa [dictSet, hk, hv', List.lookup] using ih

/-- `get_subjects` on a list whose successfully hashed entries all have
well-formed digests (exactly one `":"` after stripping) returns, without
raising: the subjects of the found entries and the names of the missing
ones, both in iteration order. -/
theorem get_subjects_ok (store : Store) (outputs : List (String × OutputDescriptor))
    (hwf : ∀ o ∈ outputs, ∀ s, store.queryHash o.2.path = some s →
             ∃ ht hv, pySplitChar (pyStrip s) ':' = [ht, hv]) :
    get_subjects store outputs = .ok
      (outputs.filterMap (fun o =>
         match store.queryHash o.2.path with
         | Option.none => Option.none
         | Option.some s =>
           match pySplitChar (pyStrip s) ':' with
           | [ht, hv] => some { name := o.1, uri := o.2.path, digest := (ht, hv) }
           | _ => Option.none),
       (outputs.filter (fun o => (store.queryHash o.2.path).isNone)).map (fun o => o.1)) := by
  induction outputs with
  | nil => rfl
  | cons o rest ih =>
    obtain ⟨name, data⟩ := o
    have hrest := ih (fun o ho => hwf o (List.mem_cons_of_mem _ ho))
    cases hq : store.queryHash data.path with
    | none =>
      simp [get_subjects, hq, hrest]
    | some s =>
      obtain ⟨ht, hv, hsplit⟩ := hwf (name, data) (List.mem_cons_self _ _) s hq
      simp [get_subjects, hq, hsplit, hrest]

/-- Every dependency path in the queried list whose hash query fails makes
the whole dependency loop raise. -/
theorem dependencies_of_error (store : Store) (ps : List String) (d : String)
    (hd : d ∈ ps) (hq : store.queryHash d = Option.none) :
    ∃ e, dependencies_of store ps = .error e := by
  induction ps with
  | nil => cases hd
  | cons p rest ih =>
    rcases List.mem_cons.mp hd with rfl | hmem
    · have hdd : dependency_descriptor store d = .error .calledProcessError := by
        unfold dependency_descriptor
        rw [hq]
      exact ⟨.calledProcessError, by simp [dependencies_of, hdd]⟩
    · cases hdd : dependency_descriptor store p with
      | error e => exact ⟨e, by simp [dependencies_of, hdd]⟩
      | ok dp =>
        obtain ⟨e, he⟩ := ih hmem
        exact ⟨e, by simp [dependencies_of, hdd, he]⟩

/-- For a successfully resolved `.drv` dependency, the `annotations` field
is determined by the `version` entry of the derivation environment:
present with that single entry when the version is a non-empty string,
absent otherwise. -/
theorem dependency_descriptor_drv_annotations (store : Store) (drv : String)
    (d : ResourceDescriptor) (dep_json : List (String × DrvInfo)) (info : DrvInfo)
    (hdrv : pyEndsWith drv ".drv" = true)
    (hshow : store.drvShow drv = some dep_json)
    (hinfo : List.lookup drv dep_json = some info)
    (h : dependency_descriptor store drv = .ok d) :
    d.annotations = (match List.lookup "version" info.env with
      | Option.some v => if v != "" then some [("version", v)] else Option.none
      | Option.none => Option.none) := by
  unfold dependency_descriptor at h
  cases hq : store.queryHash drv with
  | none =>
    rw [hq] at h
    exact Except.noConfusion h
  | some s =>
    simp only [hq] at h
    cases hsp : pySplitChar (pyStrip s) ':' with
    | nil =>
      simp only [hsp] at h
      exact Except.noConfusion h
    | cons a t =>
      cases t with
      | nil =>
        simp only [hsp] at h
        exact Except.noConfusion h
      | cons b t2 =>
        cases t2 with
        | cons c t3 =>
          simp only [hsp] at h
          exact Except.noConfusion h
        | nil =>
          simp only [hsp, hdrv, if_true, hshow, hinfo] at h
          injection h with h
          subst h
          cases hlv : List.lookup "version" info.env with
          | none => simp [hlv]
          | some v =>
            by_cases hv : v = "" <;> simp [hlv, hv]

/-- A successfully resolved non-`.drv` dependency has neither `name` nor
`annotations`. -/
theorem dependency_descriptor_nondrv (store : Store) (drv : String)
    (d : ResourceDescriptor) (hdrv : pyEndsWith drv ".drv" = false)
    (h : dependency_descriptor store drv = .ok d) :
    d.annotations = Option.none ∧ d.name = Option.none := by
  unfold dependency_descriptor at h
  cases hq : store.queryHash drv with
  | none =>
    rw [hq] at h
    exact Except.noConfusion h
  | some s =>
    simp only [hq] at h
    cases hsp : pySplitChar (pyStrip s) ':' with
    | nil =>
      simp only [hsp] at h
      exact Except.noConfusion h
    | cons a t =>
      cases t with
      | nil =>
        simp only [hsp] at h
        exact Except.noConfusion h
      | cons b t2 =>
        cases t2 with
        | cons c t3 =>
          simp only [hsp] at h
          exact Except.noConfusion h
        | nil =>
          simp only [hsp, hdrv, if_false, Bool.false_eq_true] at h
          injection h with h
          subst h
          exact ⟨rfl, rfl⟩

/-! ## Claims -/

/-- Claim C1: dependency resolution is order-preserving and performs no
deduplication — whenever the reference query returns the path sequence `ps`
and `get_dependencies` succeeds, the `uri` fields of the returned
descriptors are exactly `ps`, in order, one descriptor per path. -/
theorem get_dependencies_order_preserving (store : Store) (drv_path : String)
    (recursive : Bool) (ps : List String) (ds : List ResourceDescriptor)
    (hq : store.queryRefs recursive drv_path = some ps)
    (hd : get_dependencies store drv_path recursive = .ok ds) :
    ds.map (fun d => d.uri) = ps := by
  unfold get_dependencies at hd
  rw [hq] at hd
  exact dependencies_of_uris store ps ds hd

/-- A synthetic store for exercising `get_dependencies`: three direct
references, every path hashed as `sha256:aa`, no derivation metadata. -/
def storeC1 : Store where
  queryHash := fun _ => some "sha256:aa"
  queryRefs := fun _ _ => some ["/nix/store/p1", "/nix/store/p2", "/nix/store/p3"]
  drvShow := fun _ => Option.none

theorem get_dependencies_order_preserving_witness :
    List.map (fun d => d.uri)
        [({ uri := "/nix/store/p1", digest := ("sha256", "aa") } : ResourceDescriptor),
         { uri := "/nix/store/p2", digest := ("sha256", "aa") },
         { uri := "/nix/store/p3", digest := ("sha256", "aa") }]
      = ["/nix/store/p1", "/nix/store/p2", "/nix/store/p3"] :=
  get_dependencies_order_preserving storeC1 "/nix/store/root.drv" false _ _
    rfl rfl

/-- Claim C5: the timestamp normalizer maps `None` to `None`, `0` to
`"1970-01-01T00:00:00.00Z"` (two fractional digits, UTC), parses the
numeric string `"1700000000"` as an integer and succeeds, and raises
`ValueError` on every non-numeric string. -/
theorem timestamp_normalizer_spec :
    timestamp .none = .ok Option.none ∧
    timestamp (.int 0) = .ok (some "1970-01-01T00:00:00.00Z") ∧
    timestamp (.str "1700000000") = .ok (some "2023-11-14T22:13:20.00Z") ∧
    ∀ s : String, pyInt s = Option.none → timestamp (.str s) = .error .valueError := by
  refine ⟨rfl, rfl, rfl, ?_⟩
  intro s h
  simp [timestamp, h]

theorem timestamp_normalizer_spec_witness :
    pyInt "not-a-number" = Option.none ∧
    timestamp (.str "not-a-number") = .error .valueError :=
  ⟨by decide, timestamp_normalizer_spec.2.2.2 "not-a-number" (by decide)⟩

/-- Claim C6: for every environment and every build-definition path (a path
matching the `.drv` naming convention), the external-parameter extractor
keeps only truthy values and always binds `"derivation"` to the
build-definition path, overriding any same-named supplied key. -/
theorem external_parameters_spec (env : Env) (drv_path : String)
    (hdrv : pyEndsWith drv_path ".drv" = true) :
    List.lookup "derivation" (get_external_parameters env drv_path)
      = some (.str drv_path) ∧
    ∀ p ∈ get_external_parameters env drv_path, truthy p.2 = true := by
  have hne : drv_path ≠ "" := by
    intro h
    rw [h] at hdrv
    exact absurd hdrv (by decide)
  have htr : truthy (.str drv_path) = true := by
    simpa [truthy] using hne
  constructor
  · exact lookup_filter_dictSet _ _ _ htr
  · intro p hp
    exact (List.mem_filter.mp hp).2

/-- A parameter environment with truthy, falsy and colliding entries. -/
def envC6 : Env where
  build_type := Option.none
  builder_id := Option.none
  invocation_id := Option.none
  timestamp_begin := Option.none
  timestamp_end := Option.none
  external_params := some [("user", .str "alice"), ("empty", .str ""),
    ("derivation", .str "supplied"), ("count", .num 0), ("flag", .bool false)]
  internal_params := Option.none

theorem external_parameters_spec_witness :
    List.lookup "derivation" (get_external_parameters envC6 "/nix/store/x.drv")
      = some (.str "/nix/store/x.drv") ∧
    ∀ p ∈ get_external_parameters envC6 "/nix/store/x.drv", truthy p.2 = true :=
  external_parameters_spec envC6 "/nix/store/x.drv" (by decide)

/-- Claim C2: when every output path exists in the store (its hash query
returns a well-formed `algorithm:value` digest), `get_subjects` returns one
subject per output, in the iteration order of the mapping, each carrying
the output name, the path as `uri`, and a digest. -/
theorem get_subjects_all_present (store : Store) (outputs : List (String × OutputDescriptor))
    (hp : ∀ o ∈ outputs, ∃ s ht hv, store.queryHash o.2.path = some s ∧
            pySplitChar (pyStrip s) ':' = [ht, hv]) :
    ∃ subjects : List Subject,
      get_subjects store outputs = .ok (subjects, []) ∧
      subjects.length = outputs.length ∧
      subjects.map (fun s => (s.name, s.uri)) = outputs.map (fun o => (o.1, o.2.path)) := by
  induction outputs with
  | nil => exact ⟨[], rfl, rfl, rfl⟩
  | cons o rest ih =>
    obtain ⟨name, data⟩ := o
    obtain ⟨s, ht, hv, hq, hsplit⟩ := hp (name, data) (List.mem_cons_self _ _)
    obtain ⟨subs, hok, hlen, hmap⟩ := ih (fun o ho => hp o (List.mem_cons_of_mem _ ho))
    refine ⟨{ name := name, uri := data.path, digest := (ht, hv) } :: subs, ?_, ?_, ?_⟩
    · simp [get_subjects, hq, hsplit, hok]
    · simp [hlen]
    · simp [hmap]

/-- Outputs of two built store paths. -/
def storeC2 : Store where
  queryHash := fun _ => some "sha256:aa"
  queryRefs := fun _ _ => some []
  drvShow := fun _ => Option.none

theorem get_subjects_all_present_witness :
    ∃ subjects : List Subject,
      get_subjects storeC2 [("out", { path := "/nix/store/o1" }),
                            ("dev", { path := "/nix/store/o2" })] = .ok (subjects, []) ∧
      subjects.length =
        [("out", ({ path := "/nix/store/o1" } : OutputDescriptor)),
         ("dev", { path := "/nix/store/o2" })].length ∧
      subjects.map (fun s => (s.name, s.uri)) =
        [("out", ({ path := "/nix/store/o1" } : OutputDescriptor)),
         ("dev", { path := "/nix/store/o2" })].map (fun o => (o.1, o.2.path)) :=
  get_subjects_all_present storeC2 _
    (fun _ _ => ⟨"sha256:aa", "sha256", "aa", rfl, rfl⟩)

/-- Claim C3: hash-query failure is asymmetric.  An output whose path's
hash query fails is excluded from the subjects, its name is recorded as a
warning and no error is raised (the resolver still returns), while any
dependency path whose hash query fails makes the whole dependency
resolution raise. -/
theorem hash_failure_asymmetry (store : Store) (outputs : List (String × OutputDescriptor))
    (drv_path : String) (recursive : Bool)
    (hwf : ∀ o ∈ outputs, ∀ s, store.queryHash o.2.path = some s →
             ∃ ht hv, pySplitChar (pyStrip s) ':' = [ht, hv])
    (hkeys : (outputs.map (fun o => o.1)).Nodup) :
    (∃ subjects warnings, get_subjects store outputs = .ok (subjects, warnings) ∧
       ∀ o ∈ outputs, store.queryHash o.2.path = Option.none →
         o.1 ∈ warnings ∧ ∀ subj ∈ subjects, subj.name ≠ o.1) ∧
    (∀ ps d, store.queryRefs recursive drv_path = some ps → d ∈ ps →
       store.queryHash d = Option.none →
       ∃ e, get_dependencies store drv_path recursive = .error e) := by
  constructor
  · refine ⟨_, _, get_subjects_ok store outputs hwf, ?_⟩
    intro o ho hfail
    constructor
    · exact List.mem_map.mpr ⟨o, List.mem_filter.mpr ⟨ho, by simp [hfail]⟩, rfl⟩
    · intro subj hsubj hname
      obtain ⟨o', ho', hfo'⟩ := List.mem_filterMap.mp hsubj
      have hname' : subj.name = o'.1 ∧ (store.queryHash o'.2.path).isSome := by
        cases hq' : store.queryHash o'.2.path with
        | none => rw [hq'] at hfo'; exact Option.noConfusion hfo'
        | some s =>
          simp only [hq'] at hfo'
          cases hsp : pySplitChar (pyStrip s) ':' with
          | nil =>
            simp only [hsp] at hfo'
            exact Option.noConfusion hfo'
          | cons a t =>
            cases t with
            | nil =>
              simp only [hsp] at hfo'
              exact Option.noConfusion hfo'
            | cons b t2 =>
              cases t2 with
              | cons c t3 =>
                simp only [hsp] at hfo'
                exact Option.noConfusion hfo'
              | nil =>
                simp only [hsp] at hfo'
                injection hfo' with hfo'
                subst hfo'
                exact ⟨rfl, rfl⟩
      have heq : o' = o :=
        List.inj_on_of_nodup_map hkeys ho' ho (by rw [← hname'.1, hname])
      rw [heq, hfail] at hname'
      exact absurd hname'.2 (by simp)
  · intro ps d hrefs hmem hfail
    unfold get_dependencies
    rw [hrefs]
    exact dependencies_of_error store ps d hmem hfail

/-- A store in which output path `o1` is missing and a dependency path
`dep1` is missing; everything else hashes as `sha256:aa`. -/
def storeC3 : Store where
  queryHash := fun p =>
    if p = "/nix/store/o1" ∨ p = "/nix/store/dep1" then Option.none
    else some "sha256:aa"
  queryRefs := fun _ _ => some ["/nix/store/dep0", "/nix/store/dep1"]
  drvShow := fun _ => Option.none

theorem hash_failure_asymmetry_witness :
    (∃ subjects warnings,
       get_subjects storeC3 [("out", { path := "/nix/store/o1" }),
                             ("dev", { path := "/nix/store/o2" })] = .ok (subjects, warnings) ∧
       ∀ o ∈ [("out", ({ path := "/nix/store/o1" } : OutputDescriptor)),
              ("dev", { path := "/nix/store/o2" })],
         storeC3.queryHash o.2.path = Option.none →
           o.1 ∈ warnings ∧ ∀ subj ∈ subjects, subj.name ≠ o.1) ∧
    (∀ ps d, storeC3.queryRefs false "/nix/store/root.drv" = some ps → d ∈ ps →
       storeC3.queryHash d = Option.none →
       ∃ e, get_dependencies storeC3 "/nix/store/root.drv" false = .error e) := by
  refine hash_failure_asymmetry storeC3 _ "/nix/store/root.drv" false ?_ (by decide)
  intro o ho s hs
  have : o = ("out", ({ path := "/nix/store/o1" } : OutputDescriptor)) ∨
      o = ("dev", ({ path := "/nix/store/o2" } : OutputDescriptor)) := by
    simpa using ho
  rcases this with rfl | rfl
  · exact absurd hs (by simp [storeC3])
  · refine ⟨"sha256", "aa", ?_⟩
    have hs' : s = "sha256:aa" := by
      simpa [storeC3] using hs.symm
    rw [hs']
    rfl

/-- Claim C8 is false as stated: `get_subjects` raises `ValueError` when a
hash query succeeds with a digest string that does not split on `":"` into
exactly two parts.  This store returns the colon-free string `"garbage"`. -/
def storeC8 : Store where
  queryHash := fun _ => some "garbage"
  queryRefs := fun _ _ => Option.none
  drvShow := fun _ => Option.none

theorem get_subjects_never_raises_cex :
    get_subjects storeC8 [("out", { path := "/nix/store/o1" })] = .error .valueError := rfl

/-- Claim C8 (amended): `get_subjects` never raises provided every
successful hash query returns a string that strips and splits on `":"`
into exactly two parts; outputs whose hash query fails can never cause a
raise. -/
theorem get_subjects_total (store : Store) (outputs : List (String × OutputDescriptor))
    (hwf : ∀ o ∈ outputs, ∀ s, store.queryHash o.2.path = some s →
             ∃ ht hv, pySplitChar (pyStrip s) ':' = [ht, hv]) :
    ∃ res, get_subjects store outputs = .ok res :=
  ⟨_, get_subjects_ok store outputs hwf⟩

/-- A store where the only queried output path is absent. -/
def storeC8w : Store where
  queryHash := fun _ => Option.none
  queryRefs := fun _ _ => Option.none
  drvShow := fun _ => Option.none

theorem get_subjects_total_witness :
    ∃ res, get_subjects storeC8w [("out", { path := "/nix/store/o1" })] = .ok res :=
  get_subjects_total storeC8w _ (fun _ _ _ hs => Option.noConfusion hs)

/-- Claim C4 is false as stated: a `.drv` dependency whose environment
contains a `version` entry with the empty string as value yields a
descriptor with no `annotations` field (the code tests truthiness of the
value, not presence of the key; see C10). -/
def storeC4 : Store where
  queryHash := fun _ => some "sha256:aa"
  queryRefs := fun _ _ => some ["/nix/store/dep.drv"]
  drvShow := fun p =>
    if p = "/nix/store/dep.drv" then
      some [("/nix/store/dep.drv", { name := "dep", env := [("version", "")], outputs := [] })]
    else Option.none

theorem version_annotation_cex :
    storeC4.drvShow "/nix/store/dep.drv" =
      some [("/nix/store/dep.drv",
             { name := "dep", env := [("version", "")], outputs := [] })] ∧
    dependency_descriptor storeC4 "/nix/store/dep.drv" =
      .ok { uri := "/nix/store/dep.drv", digest := ("sha256", "aa"),
            name := some "dep", annotations := Option.none } :=
  ⟨rfl, rfl⟩

/-- Claim C4 (amended): for a successfully resolved dependency path that
matches the `.drv` naming convention, a `version` entry with a non-empty
value in its environment yields `annotations = {version: value}` and an
absent `version` key yields no `annotations` field; a path that is not a
build definition never carries annotations. -/
theorem version_annotation_spec (store : Store) (drv : String) (d : ResourceDescriptor)
    (dep_json : List (String × DrvInfo)) (info : DrvInfo)
    (h : dependency_descriptor store drv = .ok d) :
    (pyEndsWith drv ".drv" = true → store.drvShow drv = some dep_json →
       List.lookup drv dep_json = some info →
       ((∀ v, List.lookup "version" info.env = some v → v ≠ "" →
           d.annotations = some [("version", v)]) ∧
        (List.lookup "version" info.env = Option.none →
           d.annotations = Option.none))) ∧
    (pyEndsWith drv ".drv" = false → d.annotations = Option.none) := by
  constructor
  · intro hdrv hshow hinfo
    have hann := dependency_descriptor_drv_annotations store drv d dep_json info
      hdrv hshow hinfo h
    constructor
    · intro v hv hne
      rw [hann, hv]
      simp [hne]
    · intro hv
      rw [hann, hv]
  · intro hdrv
    exact (dependency_descriptor_nondrv store drv d hdrv h).1

/-- A store whose one `.drv` dependency declares `version=1.2.3`. -/
def storeC4w : Store where
  queryHash := fun _ => some "sha256:bb"
  queryRefs := fun _ _ => some []
  drvShow := fun _ =>
    some [("/nix/store/lib.drv", { name := "lib", env := [("version", "1.2.3")], outputs := [] })]

theorem version_annotation_spec_witness :
    (pyEndsWith "/nix/store/lib.drv" ".drv" = true →
       storeC4w.drvShow "/nix/store/lib.drv" =
         some [("/nix/store/lib.drv",
                { name := "lib", env := [("version", "1.2.3")], outputs := [] })] →
       List.lookup "/nix/store/lib.drv"
           [("/nix/store/lib.drv",
             ({ name := "lib", env := [("version", "1.2.3")], outputs := [] } : DrvInfo))] =
         some ({ name := "lib", env := [("version", "1.2.3")], outputs := [] } : DrvInfo) →
       ((∀ v, List.lookup "version"
            [("version", "1.2.3")] = some v → v ≠ "" →
            (({ uri := "/nix/store/lib.drv", digest := ("sha256", "bb"),
                name := some "lib",
                annotations := some [("version", "1.2.3")] } : ResourceDescriptor)).annotations
              = some [("version", v)]) ∧
        (List.lookup "version" [("version", "1.2.3")] = Option.none →
           (({ uri := "/nix/store/lib.drv", digest := ("sha256", "bb"),
               name := some "lib",
               annotations := some [("version", "1.2.3")] } : ResourceDescriptor)).annotations
             = Option.none))) ∧
    (pyEndsWith "/nix/store/lib.drv" ".drv" = false →
       (({ uri := "/nix/store/lib.drv", digest := ("sha256", "bb"),
           name := some "lib",
           annotations := some [("version", "1.2.3")] } : ResourceDescriptor)).annotations
         = Option.none) :=
  version_annotation_spec storeC4w "/nix/store/lib.drv" _
    [("/nix/store/lib.drv", { name := "lib", env := [("version", "1.2.3")], outputs := [] })]
    { name := "lib", env := [("version", "1.2.3")], outputs := [] } rfl

/-- Claim C10: a build-definition dependency whose environment maps
`version` to the empty string gets no `annotations` field — annotations
require a non-empty (truthy) version value, not merely a present key. -/
theorem empty_version_no_annotations (store : Store) (drv : String)
    (d : ResourceDescriptor) (dep_json : List (String × DrvInfo)) (info : DrvInfo)
    (hdrv : pyEndsWith drv ".drv" = true)
    (hshow : store.drvShow drv = some dep_json)
    (hinfo : List.lookup drv dep_json = some info)
    (hv : List.lookup "version" info.env = some "")
    (h : dependency_descriptor store drv = .ok d) :
    d.annotations = Option.none := by
  rw [dependency_descriptor_drv_annotations store drv d dep_json info hdrv hshow hinfo h, hv]
  rfl

theorem empty_version_no_annotations_witness :
    ({ uri := "/nix/store/dep.drv", digest := ("sha256", "aa"),
       name := some "dep", annotations := Option.none } : ResourceDescriptor).annotations
      = Option.none :=
  empty_version_no_annotations storeC4 "/nix/store/dep.drv" _
    [("/nix/store/dep.drv", { name := "dep", env := [("version", "")], outputs := [] })]
    { name := "dep", env := [("version", "")], outputs := [] } rfl rfl rfl rfl rfl

/-- Claim C7 is false as stated: `internalParameters` of the assembled
document is the environment-provided object verbatim, so a supplied empty
value survives into the document.  Store and environment for a full
`provenance` run whose `PROVENANCE_INTERNAL_PARAMS` is `{"a": ""}`. -/
def storeC7 : Store where
  queryHash := fun _ => Option.none
  queryRefs := fun _ _ => some []
  drvShow := fun _ => some [("/nix/store/t.drv", { name := "t", env := [], outputs := [] })]

def envC7 : Env where
  build_type := Option.none
  builder_id := Option.none
  invocation_id := Option.none
  timestamp_begin := Option.none
  timestamp_end := Option.none
  external_params := Option.none
  internal_params := some [("a", .str "")]

theorem internal_parameters_nonempty_cex :
    ((provenance storeC7 envC7 0 "target" false).map (fun doc =>
        ((jLookup doc "predicate").bind (fun p => jLookup p "buildDefinition")).bind
          (fun b => jLookup b "internalParameters"))
      = .ok (some (.obj [("a", .str "")]))) ∧
    truthy (.str "") = false :=
  ⟨rfl, rfl⟩

/-- Claim C7 (amended): the `internalParameters` object of the assembled
document is the environment-provided JSON object verbatim (empty if the
variable is unset), with no non-emptiness filtering; only
`externalParameters` is filtered. -/
theorem internal_parameters_verbatim (store : Store) (env : Env) (clock : Int)
    (target : String) (recursive : Bool) (doc : JValue)
    (h : provenance store env clock target recursive = .ok doc) :
    ((jLookup doc "predicate").bind (fun p => jLookup p "buildDefinition")).bind
        (fun b => jLookup b "internalParameters")
      = some (.obj (get_internal_parameters env)) := by
  unfold provenance at h
  repeat' split at h
  all_goals first
    | exact Except.noConfusion h
    | (injection h with h; subst h; rfl)

def envC7w : Env where
  build_type := Option.none
  builder_id := Option.none
  invocation_id := Option.none
  timestamp_begin := Option.none
  timestamp_end := Option.none
  external_params := Option.none
  internal_params := some [("a", .str "x")]

theorem internal_parameters_verbatim_witness :
    ((jLookup (.obj [
        ("_type", .str "https://in-toto.io/Statement/v1"),
        ("subject", .arr []),
        ("predicateType", .str "https://slsa.dev/provenance/v1"),
        ("predicate", .obj [
          ("buildDefinition", .obj [
            ("buildType", .null),
            ("externalParameters", .obj [("derivation", .str "/nix/store/t.drv")]),
            ("internalParameters", .obj [("a", .str "x")]),
            ("resolvedDependencies", .arr [])]),
          ("runDetails", .obj [
            ("builder", .obj [
              ("id", .null),
              ("builderDependencies", .arr []),
              ("version", .obj [])]),
            ("metadata", .obj [
              ("invocationId", .null),
              ("startedOn", .null),
              ("finishedOn", .null)]),
            ("byproducts", .arr [])])])]) "predicate").bind
          (fun p => jLookup p "buildDefinition")).bind
        (fun b => jLookup b "internalParameters")
      = some (.obj (get_internal_parameters envC7w)) :=
  internal_parameters_verbatim storeC7 envC7w 0 "target" false _ rfl

/-- Claim C9: the assembled document is deterministic.  The ambient wall
clock is passed to `provenance` but the source never samples it, so for a
fixed store snapshot and fixed environment two invocations under arbitrary
clock states produce the same document value — and hence byte-identical
serialized JSON, serialization being a function of the value. -/
theorem provenance_deterministic (store : Store) (env : Env) (target : String)
    (recursive : Bool) (c₁ c₂ : Int) :
    provenance store env c₁ target recursive = provenance store env c₂ target recursive :=
  rfl

end NixProvenance
